import Mathlib

/-!
Verification development for GalleryGopher (`src/main.go`, the Firestore-backed
variant).  The Go program is a Discord bot: slash-command interactions are
dispatched to handler functions that read and write gallery documents in a
Firestore collection, and button clicks on confirmation prompts are dispatched
to component handlers that re-extract their payload from the prompt message.

Shallow embedding conventions:
* The Firestore collection `galleries` is modelled as an association list
  `Store` from gallery name to `Gallery`; `docRef.Get` returning a NotFound
  error corresponds to `Store.get` returning `none`, and a successful `Get`
  followed by `DataTo` corresponds to `some`.  Store writes (`docRef.Set`,
  `docRef.Delete`) are modelled as always succeeding; the `StoreUnavailable`
  branches of the Go code (write failure, or a read failure other than
  NotFound) are outside the model.
* `getGalleryDocRef` (`firestoreClient.Collection("galleries").Doc(name)`)
  always returns a non-nil `*firestore.DocumentRef` (the collection ref is
  non-nil and `Doc` only propagates a nil receiver), so the
  `docRef == nil` else-branches of `getRandomImageFromGallery`,
  `getImageFromGallery` and `addImageToGallery` are dead code and are not
  represented.  A nonexistent gallery therefore takes the `err != nil`
  branch in those three functions.
* `rand.Intn(n)` returns an arbitrary value in `[0, n)`; it is modelled by a
  parameter `rnd : Nat` reduced modulo `n`.
* `time.Now().Unix()` and the interacting member's id are threaded in as the
  string parameters `now` and `authorId`.
* Discord interaction payloads, response payloads and messages are modelled by
  the structures below, keeping exactly the parts the handlers read or write
  (descriptions, colors, embedded image URL, footer text, embed fields, and
  the action-row buttons).
-/

namespace GalleryGopher

/-- One image record of a gallery document.  `addImageToGallery` stores each
image as a `map[string]string` with exactly the keys `imageUrl`, `timestamp`
and `authorId`; the record is modelled with those three fields. -/
structure Image where
  imageUrl : String
  timestamp : String
  authorId : String
deriving Repr, DecidableEq, Inhabited

/-- `type Gallery struct { Images []map[string]string }` -/
structure Gallery where
  images : List Image
deriving Repr, DecidableEq, Inhabited

/-- The Firestore `galleries` collection: one document per gallery name
(the document key). -/
abbrev Store := List (String × Gallery)

/-- `docRef.Get` + `DataTo`: the document for `name`, if present. -/
def Store.get (st : Store) (name : String) : Option Gallery :=
  match st with
  | [] => none
  | (k, g) :: rest => if k = name then some g else Store.get rest name

/-- `docRef.Set`: write the full document (create or replace). -/
def Store.set (st : Store) (name : String) (g : Gallery) : Store :=
  match st with
  | [] => [(name, g)]
  | (k, g0) :: rest =>
      if k = name then (k, g) :: rest else (k, g0) :: Store.set rest name g

/-- `docRef.Delete`: remove the document. -/
def Store.del (st : Store) (name : String) : Store :=
  match st with
  | [] => []
  | (k, g0) :: rest =>
      if k = name then Store.del rest name else (k, g0) :: Store.del rest name

/-- A field of a Discord message embed. -/
structure EmbedField where
  name : String
  value : String
  inline : Bool := false
deriving Repr, DecidableEq, Inhabited

/-- The parts of `discordgo.MessageEmbed` the handlers construct or read. -/
structure Embed where
  description : String := ""
  color : Nat := 0
  imageUrl : Option String := none
  footerText : Option String := none
  fields : List EmbedField := []
deriving Repr, DecidableEq, Inhabited

/-- A button of the confirmation prompts (label and custom identifier). -/
structure Button where
  label : String
  customID : String
deriving Repr, DecidableEq, Inhabited

/-- `discordgo.InteractionResponseData`: `none` components means the field was
left unset, `some []` means it was explicitly set to an empty list (which is
what strips the buttons from a prompt message). -/
structure ResponseData where
  embeds : List Embed := []
  components : Option (List Button) := none
deriving Repr, DecidableEq, Inhabited

/-- The interaction response type used by a handler:
`ChannelMessageWithSource` posts a new message, `UpdateMessage` replaces the
message the component was attached to. -/
inductive ResponseType
  | channelMessageWithSource
  | updateMessage
deriving Repr, DecidableEq

/-- A full `discordgo.InteractionResponse`. -/
structure Response where
  rtype : ResponseType
  data : ResponseData
deriving Repr, DecidableEq

/-- One option value of a subcommand invocation. -/
inductive OptVal
  | str (v : String)
  | int (v : Int)
deriving Repr, DecidableEq

/-- `discordgo`'s `Option.StringValue()` (the zero string for a non-string
option value; the registered schema makes the types always match). -/
def OptVal.stringValue : OptVal → String
  | .str v => v
  | .int _ => ""

/-- `discordgo`'s `Option.IntValue()` (zero for a non-integer option value). -/
def OptVal.intValue : OptVal → Int
  | .int v => v
  | .str _ => 0

/-- `i.ApplicationCommandData().Options[0]`: the invoked subcommand and its
option values. -/
structure SubCommand where
  name : String
  options : List OptVal
deriving Repr, DecidableEq

/-- `command.Options[k]`.  Go would panic on an out-of-range access; the
registered schema guarantees the required options are present, and the model
returns a zero string option instead. -/
def SubCommand.opt (c : SubCommand) (k : Nat) : OptVal :=
  c.options.getD k (.str "")

/-- The message a component interaction is attached to (`i.Message`); the
handlers only read its embeds' fields. -/
structure Message where
  embeds : List Embed
deriving Repr, DecidableEq

/-- `i.Message.Embeds[0].Fields[k].Value`.  Go would panic if the embed or
field were absent; prompt messages always carry them, and the model returns
the empty string instead. -/
def Message.fieldValue (m : Message) (k : Nat) : String :=
  ((m.embeds.getD 0 {}).fields.getD k {name := "", value := ""}).value

/-- The backtick character, used by `fmt.Sprintf` patterns and
`strings.Trim`. -/
def backtick : Char := Char.ofNat 96

/-- `fmt.Sprintf` with a `%s` wrapped in backticks, as used for the
"In gallery" / "Gallery" embed field values. -/
def inBackticks (s : String) : String :=
  String.mk (backtick :: s.data ++ [backtick])

/-- Drop every leading and trailing occurrence of `c`. -/
def trimCharList (c : Char) (l : List Char) : List Char :=
  ((l.dropWhile (· == c)).reverse.dropWhile (· == c)).reverse

/-- Go `strings.Trim(s, "\x60")`: remove all leading and trailing backticks,
as the component handlers do to recover the gallery name from the prompt's
embed field. -/
def goTrimBackticks (s : String) : String :=
  String.mk (trimCharList backtick s.data)

/-- The digit-run value of a decimal literal, if the characters are one or
more ASCII digits and nothing else. -/
def decDigitsVal (ds : List Char) : Option Nat :=
  if ds = [] then none
  else if ds.all (·.isDigit) then
    some (ds.foldl (fun acc c => acc * 10 + (c.toNat - 48)) 0)
  else none

/-- The syntax accepted by Go `strconv.Atoi`: an optional `+` or `-` sign
followed by one or more decimal digits.  Returns `none` exactly when Go
returns an `ErrSyntax` error.  (Go additionally clamps values outside the
machine `int` range and reports `ErrRange`; the model keeps the exact
mathematical value, which is equivalent for every bounds comparison the
handlers perform.) -/
def goParseDecInt (s : String) : Option Int :=
  match s.data with
  | [] => none
  | '+' :: ds => (decDigitsVal ds).map Int.ofNat
  | '-' :: ds => (decDigitsVal ds).map (fun n => -(n : Int))
  | ds => (decDigitsVal ds).map Int.ofNat

/-- `imageNum, _ := strconv.Atoi(s)` with the error discarded: on any syntax
error the returned integer is 0. -/
def goAtoi (s : String) : Int :=
  (goParseDecInt s).getD 0

/-- Embed `{Description: "Gallery does not exist :stop_sign:", Color: 0xf04747}`. -/
def galleryNotExistEmbed : Embed :=
  { description := "Gallery does not exist :stop_sign:", color := 0xf04747 }

/-- Embed `{Description: "Unable to get gallery contents :stop_sign:", Color: 0xf04747}`
(the generic read-failure answer of the `err != nil` branches). -/
def unableGetEmbed : Embed :=
  { description := "Unable to get gallery contents :stop_sign:", color := 0xf04747 }

/-- Embed `{Description: "Gallery is empty :stop_sign:", Color: 0xf04747}`. -/
def galleryEmptyEmbed : Embed :=
  { description := "Gallery is empty :stop_sign:", color := 0xf04747 }

/-- The invalid-image-number embed of `pick` for a single-image gallery. -/
def pickSingleInvalidEmbed : Embed :=
  { description := "Invalid image number :stop_sign:\n(Only image number 0 is valid. Perhaps add more images to the gallery?)",
    color := 0xf04747 }

/-- The invalid-image-number embed of `remove_image` for a single-image
gallery. -/
def removeSingleInvalidEmbed : Embed :=
  { description := "Invalid image number :stop_sign: (Only image number 0 exists.)",
    color := 0xf04747 }

/-- The invalid-image-number embed naming the valid range `0 .. maxIdx`. -/
def rangeInvalidEmbed (maxIdx : Int) : Embed :=
  { description := "Invalid image number :stop_sign: (Valid image numbers include 0 through "
      ++ toString maxIdx ++ " inclusive.)",
    color := 0xf04747 }

/-- `fmt.Sprintf("Image: %d of %d | Gallery: %s", num, total, gallery)`. -/
def footerText (num total : Int) (gallery : String) : String :=
  "Image: " ++ toString num ++ " of " ++ toString total ++ " | Gallery: " ++ gallery

/-- The embed carrying the image at index `num` of a gallery of
`total + 1` images. -/
def imageEmbed (url : String) (num total : Int) (gallery : String) : Embed :=
  { imageUrl := some url, footerText := some (footerText num total gallery) }

/-- `getRandomImageFromGallery` (src/main.go:145-214).  `rnd` models the
`rand.Intn(numberOfImages)` draw; the `docRef == nil` branch
("Gallery does not exist") is dead code (see the module comment), so a
nonexistent gallery answers with the generic `unableGetEmbed`. -/
def getRandomImageFromGallery (st : Store) (rnd : Nat) (cmd : SubCommand) :
    ResponseData :=
  let galleryName := (cmd.opt 0).stringValue
  match st.get galleryName with
  | none => { embeds := [unableGetEmbed] }
  | some gallery =>
    let images := gallery.images
    let numberOfImages := images.length
    if 0 < numberOfImages then
      if numberOfImages = 1 then
        { embeds := [imageEmbed (images.getD 0 default).imageUrl 0
            ((numberOfImages : Int) - 1) galleryName] }
      else
        let chosenImageInt := rnd % numberOfImages
        { embeds := [imageEmbed (images.getD chosenImageInt default).imageUrl
            (chosenImageInt : Int) ((numberOfImages : Int) - 1) galleryName] }
    else
      { embeds := [galleryEmptyEmbed] }

/-- `getImageFromGallery` (src/main.go:216-287), the `pick` subcommand.
As above, the `docRef == nil` branch is dead, so a nonexistent gallery
answers with `unableGetEmbed`. -/
def getImageFromGallery (st : Store) (cmd : SubCommand) : ResponseData :=
  let galleryName := (cmd.opt 0).stringValue
  let imageNum : Int := (cmd.opt 1).intValue
  match st.get galleryName with
  | none => { embeds := [unableGetEmbed] }
  | some gallery =>
    let images := gallery.images
    let numberOfImages := images.length
    if 0 < numberOfImages then
      if imageNum < 0 ∨ (numberOfImages : Int) ≤ imageNum then
        if numberOfImages = 1 then
          { embeds := [pickSingleInvalidEmbed] }
        else
          { embeds := [rangeInvalidEmbed ((numberOfImages : Int) - 1)] }
      else
        { embeds := [imageEmbed (images.getD imageNum.toNat default).imageUrl
            imageNum ((numberOfImages : Int) - 1) galleryName] }
    else
      { embeds := [galleryEmptyEmbed] }

/-- The success embed of `add_image`: description
`fmt.Sprintf("Image \x60%d\x60 created!", len(gallery.Images)-1)` plus the
"In gallery" / "Added by" / "Created at" fields. -/
def addSuccessEmbed (newLen : Nat) (galleryName authorId timestamp : String) :
    Embed :=
  { description := "Image " ++ inBackticks (toString (newLen - 1)) ++ " created!",
    fields :=
      [ { name := "In gallery", value := inBackticks galleryName, inline := true },
        { name := "Added by", value := "<@" ++ authorId ++ ">", inline := true },
        { name := "Created at", value := "<t:" ++ timestamp ++ ">", inline := true } ] }

/-- `addImageToGallery` (src/main.go:289-368).  `now` models
`fmt.Sprint(time.Now().Unix())` and `authorId` models `i.Member.User.ID`.
A nonexistent gallery takes the `err != nil` branch (`unableGetEmbed`), the
dead `docRef == nil` branch is omitted, and the `docRef.Set` write is
modelled as succeeding. -/
def addImageToGallery (st : Store) (now authorId : String) (cmd : SubCommand) :
    ResponseData × Store :=
  let galleryName := (cmd.opt 0).stringValue
  let imageUrl := (cmd.opt 1).stringValue
  let timestamp := now
  match st.get galleryName with
  | none => ({ embeds := [unableGetEmbed] }, st)
  | some gallery =>
    let images2 := gallery.images ++ [⟨imageUrl, timestamp, authorId⟩]
    let st2 := st.set galleryName ⟨images2⟩
    ({ embeds := [addSuccessEmbed images2.length galleryName authorId timestamp] },
      st2)

/-- The two buttons of the image-removal confirmation prompt. -/
def imageDeleteButtons : List Button :=
  [ { label := "Yes, delete", customID := "image_delete_yes" },
    { label := "No, cancel", customID := "image_delete_no" } ]

/-- The confirmation embed shown by `removeImagePrompt`, carrying the gallery
name (in backticks) and the image number as embed fields. -/
def removePromptEmbed (img : Image) (imageNum : Int) (galleryName : String) :
    Embed :=
  { description := "Are you sure you want to delete the below image? :thinking:",
    color := 0x5865f2,
    imageUrl := some img.imageUrl,
    fields :=
      [ { name := "In gallery", value := inBackticks galleryName, inline := true },
        { name := "Image number", value := toString imageNum, inline := true },
        { name := "Added by", value := "<@" ++ img.authorId ++ ">", inline := true },
        { name := "Created at", value := "<t:" ++ img.timestamp ++ ">", inline := true } ] }

/-- `removeImagePrompt` (src/main.go:370-476), the `remove_image` subcommand.
Here the Go code does branch on `status.Code(err) == codes.NotFound`, so a
nonexistent gallery answers `galleryNotExistEmbed`; an empty gallery answers
with the same embed (that is what the final else-branch of the Go code
does). -/
def removeImagePrompt (st : Store) (cmd : SubCommand) : ResponseData :=
  let galleryName := (cmd.opt 0).stringValue
  let imageNum : Int := (cmd.opt 1).intValue
  match st.get galleryName with
  | none => { embeds := [galleryNotExistEmbed] }
  | some gallery =>
    let images := gallery.images
    let numberOfImages := images.length
    if 0 < numberOfImages then
      if imageNum < 0 ∨ (numberOfImages : Int) ≤ imageNum then
        if numberOfImages = 1 then
          { embeds := [removeSingleInvalidEmbed] }
        else
          { embeds := [rangeInvalidEmbed ((numberOfImages : Int) - 1)] }
      else
        { embeds := [removePromptEmbed (images.getD imageNum.toNat default)
            imageNum galleryName],
          components := some imageDeleteButtons }
    else
      { embeds := [galleryNotExistEmbed] }

/-- The success embed of image removal:
`fmt.Sprintf("Image \x60%d\x60 removed from \x60%s\x60 :white_check_mark:", imageNum, galleryName)`. -/
def removeSuccessEmbed (imageNum : Int) (galleryName : String) : Embed :=
  { description := "Image " ++ inBackticks (toString imageNum) ++ " removed from "
      ++ inBackticks galleryName ++ " :white_check_mark:",
    color := 0x43b581 }

/-- `removeImage` (src/main.go:478-550): the destructive half of image
removal, called by the `image_delete_yes` component handler with the gallery
name and image number recovered from the prompt message.  A nonexistent
gallery answers `galleryNotExistEmbed` (the `codes.NotFound` branch); an
empty gallery answers with the same embed; an in-range index removes the
element (`append(images[:imageNum], images[imageNum+1:]...)`) and writes the
document back. -/
def removeImage (st : Store) (galleryName : String) (imageNum : Int) :
    ResponseData × Store :=
  match st.get galleryName with
  | none => ({ embeds := [galleryNotExistEmbed] }, st)
  | some gallery =>
    let images := gallery.images
    let numberOfImages := images.length
    if 0 < numberOfImages then
      if imageNum < 0 ∨ (numberOfImages : Int) ≤ imageNum then
        (if numberOfImages = 1 then { embeds := [removeSingleInvalidEmbed] }
         else { embeds := [rangeInvalidEmbed ((numberOfImages : Int) - 1)] }, st)
      else
        let images2 := images.take imageNum.toNat ++ images.drop (imageNum.toNat + 1)
        let st2 := st.set galleryName ⟨images2⟩
        ({ embeds := [removeSuccessEmbed imageNum galleryName] }, st2)
    else
      ({ embeds := [galleryNotExistEmbed] }, st)

/-- The success embed of `create`. -/
def createdEmbed (galleryName : String) : Embed :=
  { description := "Gallery " ++ inBackticks galleryName
      ++ " created :white_check_mark:",
    color := 0x43b581 }

/-- Embed `{Description: "Gallery already exists :stop_sign:", Color: 0xf04747}`. -/
def alreadyExistsEmbed : Embed :=
  { description := "Gallery already exists :stop_sign:", color := 0xf04747 }

/-- `createGallery` (src/main.go:552-586): NotFound on the read means the
name is free, so an empty `Gallery{}` document is written; an `OK` read means
the gallery already exists.  The `updateCommands()` schema-sync side effect
is outside the model. -/
def createGallery (st : Store) (cmd : SubCommand) : ResponseData × Store :=
  let galleryName := (cmd.opt 0).stringValue
  match st.get galleryName with
  | none =>
    let st2 := st.set galleryName ⟨[]⟩
    ({ embeds := [createdEmbed galleryName] }, st2)
  | some _ => ({ embeds := [alreadyExistsEmbed] }, st)

/-- The two buttons of the gallery-deletion confirmation prompt. -/
def galleryDeleteButtons : List Button :=
  [ { label := "Yes, delete", customID := "gallery_delete_yes" },
    { label := "No, cancel", customID := "gallery_delete_no" } ]

/-- `deleteGalleryPrompt` (src/main.go:588-635), the `delete` subcommand:
NotFound answers `galleryNotExistEmbed`, otherwise the confirmation prompt is
shown with the gallery name (in backticks) as its single embed field. -/
def deleteGalleryPrompt (st : Store) (cmd : SubCommand) : ResponseData :=
  let galleryName := (cmd.opt 0).stringValue
  match st.get galleryName with
  | none => { embeds := [galleryNotExistEmbed] }
  | some _ =>
    { embeds :=
        [ { description := "Are you sure you want to delete the following gallery? :thinking:",
            color := 0x5865f2,
            fields := [ { name := "Gallery", value := inBackticks galleryName } ] } ],
      components := some galleryDeleteButtons }

/-- The success embed of `delete`. -/
def deletedEmbed (galleryName : String) : Embed :=
  { description := "Gallery " ++ inBackticks galleryName
      ++ " deleted :white_check_mark:",
    color := 0x43b581 }

/-- `deleteGallery` (src/main.go:637-669): the destructive half of gallery
deletion, called by `gallery_delete_yes` with the name recovered from the
prompt message.  NotFound answers `galleryNotExistEmbed`; otherwise the
document is deleted (the `docRef.Delete` write is modelled as succeeding,
and `updateCommands()` is outside the model). -/
def deleteGallery (st : Store) (galleryName : String) : ResponseData × Store :=
  match st.get galleryName with
  | none => ({ embeds := [galleryNotExistEmbed] }, st)
  | some _ => ({ embeds := [deletedEmbed galleryName] }, st.del galleryName)

/-- Component handler `gallery_delete_yes` (src/main.go:847-861): recover the
gallery name from `Embeds[0].Fields[0].Value` by trimming backticks, run
`deleteGallery`, clear the components and update the prompt message. -/
def galleryDeleteYes (st : Store) (msg : Message) : Response × Store :=
  let galleryName := goTrimBackticks (msg.fieldValue 0)
  let (data, st2) := deleteGallery st galleryName
  (⟨.updateMessage, { data with components := some [] }⟩, st2)

/-- Component handler `gallery_delete_no` (src/main.go:862-879): no store
access at all; the prompt is replaced by a cancellation notice with an empty
component list. -/
def galleryDeleteNo (st : Store) (msg : Message) : Response × Store :=
  let galleryName := goTrimBackticks (msg.fieldValue 0)
  (⟨.updateMessage,
    { embeds :=
        [ { description := "Cancelled removal of gallery "
              ++ inBackticks galleryName ++ "." } ],
      components := some [] }⟩, st)

/-- Component handler `image_delete_yes` (src/main.go:880-897): recover the
gallery name from `Embeds[0].Fields[0].Value` (trimming backticks) and the
image number from `Embeds[0].Fields[1].Value` via `strconv.Atoi` with the
error discarded, run `removeImage`, clear the components and update the
prompt message. -/
def imageDeleteYes (st : Store) (msg : Message) : Response × Store :=
  let galleryName := goTrimBackticks (msg.fieldValue 0)
  let imageNum := goAtoi (msg.fieldValue 1)
  let (data, st2) := removeImage st galleryName imageNum
  (⟨.updateMessage, { data with components := some [] }⟩, st2)

/-- Component handler `image_delete_no` (src/main.go:898-916): no store
access; the prompt is replaced by a cancellation notice with an empty
component list. -/
def imageDeleteNo (st : Store) (msg : Message) : Response × Store :=
  let galleryName := goTrimBackticks (msg.fieldValue 0)
  let imageNum := msg.fieldValue 1
  (⟨.updateMessage,
    { embeds :=
        [ { description := "Cancelled removal of image " ++ inBackticks imageNum
              ++ " from gallery " ++ inBackticks galleryName ++ "." } ],
      components := some [] }⟩, st)

/-- The diagnostic embed of the `default:` subcommand branch. -/
def invalidSubcommandEmbed : Embed :=
  { description := "Invalid subcommand :stop_sign:", color := 0xf04747 }

/-- `commandHandlers["gallery"]` (src/main.go:798-844): dispatch on the
subcommand name; an unknown subcommand answers `invalidSubcommandEmbed`.
(The handler's outer `switch i.Type` has only the command case reachable
here, since the top-level dispatch already switched on the interaction
type.)  Every branch responds with `ChannelMessageWithSource`. -/
def galleryCommandHandler (st : Store) (rnd : Nat) (now authorId : String)
    (sub : SubCommand) : Response × Store :=
  if sub.name = "random" then
    (⟨.channelMessageWithSource, getRandomImageFromGallery st rnd sub⟩, st)
  else if sub.name = "pick" then
    (⟨.channelMessageWithSource, getImageFromGallery st sub⟩, st)
  else if sub.name = "add_image" then
    let (data, st2) := addImageToGallery st now authorId sub
    (⟨.channelMessageWithSource, data⟩, st2)
  else if sub.name = "remove_image" then
    (⟨.channelMessageWithSource, removeImagePrompt st sub⟩, st)
  else if sub.name = "create" then
    let (data, st2) := createGallery st sub
    (⟨.channelMessageWithSource, data⟩, st2)
  else if sub.name = "delete" then
    (⟨.channelMessageWithSource, deleteGalleryPrompt st sub⟩, st)
  else
    (⟨.channelMessageWithSource, { embeds := [invalidSubcommandEmbed] }⟩, st)

/-- An inbound interaction event: a slash-command invocation (top-level
command name, subcommand, invoking member) or a component activation
(custom id and the message the component is attached to). -/
inductive Event
  | appCommand (name : String) (sub : SubCommand) (authorId : String)
  | component (customID : String) (message : Message)
deriving DecidableEq

/-- The dispatch in `main`'s `AddHandler` (src/main.go:934-945): look the
top-level command name up in `commandHandlers` (whose only key is
`"gallery"`) or the custom id up in `componentHandlers` (whose keys are the
four button ids).  When the lookup misses, the handler body does nothing at
all: no response is produced (`none`) and the store is untouched. -/
def route (st : Store) (rnd : Nat) (now : String) : Event → Option Response × Store
  | .appCommand name sub authorId =>
    if name = "gallery" then
      let (r, st2) := galleryCommandHandler st rnd now authorId sub
      (some r, st2)
    else (none, st)
  | .component cid msg =>
    if cid = "gallery_delete_yes" then
      let (r, st2) := galleryDeleteYes st msg
      (some r, st2)
    else if cid = "gallery_delete_no" then
      let (r, st2) := galleryDeleteNo st msg
      (some r, st2)
    else if cid = "image_delete_yes" then
      let (r, st2) := imageDeleteYes st msg
      (some r, st2)
    else if cid = "image_delete_no" then
      let (r, st2) := imageDeleteNo st msg
      (some r, st2)
    else (none, st)

end GalleryGopher

namespace GalleryGopher

/-! ## Helper lemmas about the store and backtick trimming -/

/-- Writing a document and reading it back under the same name yields the
written gallery. -/
theorem Store.get_set_self (st : Store) (name : String) (g : Gallery) :
    (st.set name g).get name = some g := by
  induction st with
  | nil => simp [Store.set, Store.get]
  | cons p rest ih =>
    obtain ⟨k, g0⟩ := p
    by_cases h : k = name
    · simp [Store.set, Store.get, h]
    · simp [Store.set, Store.get, h, ih]

/-- Deleting a document and reading it back under the same name misses. -/
theorem Store.get_del_self (st : Store) (name : String) :
    (st.del name).get name = none := by
  induction st with
  | nil => simp [Store.del, Store.get]
  | cons p rest ih =>
    obtain ⟨k, g0⟩ := p
    by_cases h : k = name
    · simp [Store.del, Store.get, h, ih]
    · simp [Store.del, Store.get, h, ih]

/-- The head surviving `dropWhile` fails the predicate. -/
theorem head?_dropWhile_eq_some (p : Char → Bool) (l : List Char) (x : Char) :
    (l.dropWhile p).head? = some x → p x = false := by
  induction l with
  | nil => intro h; simp at h
  | cons a t ih =>
    rw [List.dropWhile_cons]
    split
    · exact ih
    · next hpa =>
      intro h
      simp only [List.head?_cons, Option.some.injEq] at h
      subst h
      cases hpx : p a with
      | false => rfl
      | true => exact absurd hpx hpa

/-- `dropWhile` keeps the last element of the list when its result is
nonempty. -/
theorem getLast?_dropWhile_ne_nil (p : Char → Bool) (l : List Char)
    (h : l.dropWhile p ≠ []) : (l.dropWhile p).getLast? = l.getLast? := by
  obtain ⟨t, ht⟩ := List.dropWhile_suffix p (l := l)
  conv_rhs => rw [← ht]
  rw [List.getLast?_append]
  cases hl : (l.dropWhile p).getLast? with
  | none =>
    exact absurd (List.getLast?_eq_none_iff.mp hl) h
  | some x => rfl

/-- The result of a two-sided trim neither starts nor ends with the trimmed
character. -/
theorem trimCharList_edges (c : Char) (l : List Char) :
    (trimCharList c l).head? ≠ some c ∧ (trimCharList c l).getLast? ≠ some c := by
  unfold trimCharList
  constructor
  · rw [List.head?_reverse]
    by_cases h : (l.dropWhile (· == c)).reverse.dropWhile (· == c) = []
    · simp [h]
    · rw [getLast?_dropWhile_ne_nil _ _ h, List.getLast?_reverse]
      intro hc
      have := head?_dropWhile_eq_some (· == c) l c hc
      simp at this
  · rw [List.getLast?_reverse]
    intro hc
    have := head?_dropWhile_eq_some (· == c) (l.dropWhile (· == c)).reverse c hc
    simp at this

/-! ## Sample data for witnesses -/

/-- A sample stored image. -/
def sampleImageA : Image :=
  { imageUrl := "https://example.com/a.png", timestamp := "100", authorId := "alice" }

/-- A second sample stored image. -/
def sampleImageB : Image :=
  { imageUrl := "https://example.com/b.png", timestamp := "200", authorId := "bob" }

/-- A sample store holding one two-image gallery named `cats`. -/
def sampleStore : Store := [("cats", ⟨[sampleImageA, sampleImageB]⟩)]

end GalleryGopher

namespace GalleryGopher

/-! ## Claims -/

/-- C1: for a gallery of `N > 0` images, `pick` with `0 ≤ k < N` responds with
exactly the image stored at position `k` (its URL, with footer
"Image: k of N-1 | Gallery: name"), and with `k < 0` or `k ≥ N` it responds
with the invalid-image-number (range-error) embed; being a total function, it
never panics. -/
theorem pick_returns_indexed_image (st : Store) (name : String) (g : Gallery)
    (k : Int) (hg : st.get name = some g) (hN : 0 < g.images.length) :
    (0 ≤ k → k < (g.images.length : Int) →
      getImageFromGallery st ⟨"pick", [.str name, .int k]⟩ =
        { embeds := [imageEmbed (g.images.getD k.toNat default).imageUrl k
            ((g.images.length : Int) - 1) name] })
    ∧ ((k < 0 ∨ (g.images.length : Int) ≤ k) →
      getImageFromGallery st ⟨"pick", [.str name, .int k]⟩ =
        (if g.images.length = 1 then { embeds := [pickSingleInvalidEmbed] }
         else { embeds := [rangeInvalidEmbed ((g.images.length : Int) - 1)] })) := by
  unfold getImageFromGallery
  simp only [SubCommand.opt, List.getD_cons_zero, List.getD_cons_succ,
    OptVal.stringValue, OptVal.intValue, hg]
  constructor
  · intro h0 hlt
    rw [if_pos hN, if_neg (by omega)]
  · intro hout
    rw [if_pos hN, if_pos hout]

/-- C1 witness: on the two-image sample gallery, `pick 1` returns the second
image with footer index 1 of 1, and `pick 5` returns the range-error embed. -/
theorem pick_returns_indexed_image_witness :
    Store.get sampleStore "cats" = some ⟨[sampleImageA, sampleImageB]⟩
    ∧ 0 < ([sampleImageA, sampleImageB] : List Image).length
    ∧ getImageFromGallery sampleStore ⟨"pick", [.str "cats", .int 1]⟩ =
        { embeds := [imageEmbed sampleImageB.imageUrl 1 1 "cats"] }
    ∧ getImageFromGallery sampleStore ⟨"pick", [.str "cats", .int 5]⟩ =
        { embeds := [rangeInvalidEmbed 1] } := by
  refine ⟨by decide, by decide, ?_, ?_⟩
  · have h := (pick_returns_indexed_image sampleStore "cats"
      ⟨[sampleImageA, sampleImageB]⟩ 1 (by decide) (by decide)).1
      (by decide) (by decide)
    simpa using h
  · have h := (pick_returns_indexed_image sampleStore "cats"
      ⟨[sampleImageA, sampleImageB]⟩ 5 (by decide) (by decide)).2
      (by decide)
    simpa using h

/-- C2 counterexample: with an empty store (so gallery "cats" does not
exist), `random`, `pick` and `add_image` all answer with the generic
read-failure embed "Unable to get gallery contents :stop_sign:", which is not
the "Gallery does not exist :stop_sign:" response the claim requires. -/
theorem missing_gallery_generic_error_cex :
    getRandomImageFromGallery [] 0 ⟨"random", [.str "cats"]⟩
        = { embeds := [unableGetEmbed] }
    ∧ getImageFromGallery [] ⟨"pick", [.str "cats", .int 0]⟩
        = { embeds := [unableGetEmbed] }
    ∧ (addImageToGallery [] "0" "alice" ⟨"add_image", [.str "cats", .str "u"]⟩).1
        = { embeds := [unableGetEmbed] }
    ∧ unableGetEmbed.description = "Unable to get gallery contents :stop_sign:"
    ∧ unableGetEmbed.description ≠ "Gallery does not exist :stop_sign:" :=
  ⟨rfl, rfl, rfl, rfl, by decide⟩

/-- C2 (amended): for every gallery name missing from the store, the read
operations `random`, `pick` and `add_image` answer with the generic
read-failure embed (the NotFound error is not distinguished from other read
errors there); only the `remove_image` and `delete` prompt handlers (and the
confirm handlers, see C6) answer with the distinct
"Gallery does not exist" embed. -/
theorem missing_gallery_read_error_amended (st : Store) (rnd : Nat)
    (now authorId name url : String) (k : Int) (h : st.get name = none) :
    getRandomImageFromGallery st rnd ⟨"random", [.str name]⟩
        = { embeds := [unableGetEmbed] }
    ∧ getImageFromGallery st ⟨"pick", [.str name, .int k]⟩
        = { embeds := [unableGetEmbed] }
    ∧ addImageToGallery st now authorId ⟨"add_image", [.str name, .str url]⟩
        = ({ embeds := [unableGetEmbed] }, st)
    ∧ removeImagePrompt st ⟨"remove_image", [.str name, .int k]⟩
        = { embeds := [galleryNotExistEmbed] }
    ∧ deleteGalleryPrompt st ⟨"delete", [.str name]⟩
        = { embeds := [galleryNotExistEmbed] }
    ∧ unableGetEmbed ≠ galleryNotExistEmbed := by
  refine ⟨?_, ?_, ?_, ?_, ?_, by decide⟩ <;>
    simp only [getRandomImageFromGallery, getImageFromGallery, addImageToGallery,
      removeImagePrompt, deleteGalleryPrompt, SubCommand.opt, List.getD_cons_zero,
      OptVal.stringValue, h]

/-- C2 witness: gallery "dogs" is missing from the sample store and `pick`
answers with the generic read-failure embed. -/
theorem missing_gallery_read_error_amended_witness :
    Store.get sampleStore "dogs" = none
    ∧ getImageFromGallery sampleStore ⟨"pick", [.str "dogs", .int 0]⟩
        = { embeds := [unableGetEmbed] } := by
  refine ⟨by decide, ?_⟩
  exact (missing_gallery_read_error_amended sampleStore 0 "0" "alice" "dogs" "u" 0
    (by decide)).2.1

/-- C3: removing the image at an in-range index `idx` from a gallery of
`N > 0` images stores the sequence `take idx ++ drop (idx+1)`, whose length
is `N - 1`, which agrees with the old sequence below `idx`, and in which
every element previously at position `j > idx` sits at position `j - 1`;
with an out-of-range index the store is unchanged and the response is the
invalid-image-number (range-error) embed. -/
theorem removeImage_removes_at_index (st : Store) (name : String) (g : Gallery)
    (idx : Int) (hg : st.get name = some g) (hN : 0 < g.images.length) :
    (0 ≤ idx → idx < (g.images.length : Int) →
      ((removeImage st name idx).2.get name =
          some ⟨g.images.take idx.toNat ++ g.images.drop (idx.toNat + 1)⟩
        ∧ (g.images.take idx.toNat ++ g.images.drop (idx.toNat + 1)).length
            = g.images.length - 1
        ∧ (∀ j : Nat, j < idx.toNat →
            (g.images.take idx.toNat ++ g.images.drop (idx.toNat + 1)).getD j default
              = g.images.getD j default)
        ∧ (∀ j : Nat, idx.toNat < j → j < g.images.length →
            (g.images.take idx.toNat ++ g.images.drop (idx.toNat + 1)).getD (j - 1) default
              = g.images.getD j default)))
    ∧ ((idx < 0 ∨ (g.images.length : Int) ≤ idx) →
        (removeImage st name idx).2 = st
        ∧ (removeImage st name idx).1 =
            (if g.images.length = 1 then { embeds := [removeSingleInvalidEmbed] }
             else { embeds := [rangeInvalidEmbed ((g.images.length : Int) - 1)] })) := by
  constructor
  · intro h0 hlt
    have hto : idx.toNat < g.images.length := by omega
    have hlen : (g.images.take idx.toNat).length = idx.toNat := by
      rw [List.length_take]; omega
    refine ⟨?_, ?_, ?_, ?_⟩
    · unfold removeImage
      simp only [hg]
      rw [if_pos hN, if_neg (by omega)]
      exact Store.get_set_self ..
    · simp only [List.length_append, List.length_take, List.length_drop]
      omega
    · intro j hj
      simp only [List.getD_eq_getElem?_getD]
      rw [List.getElem?_append_left (by rw [hlen]; omega),
        List.getElem?_take_of_lt hj]
    · intro j hj1 hj2
      simp only [List.getD_eq_getElem?_getD]
      rw [List.getElem?_append_right (by rw [hlen]; omega), hlen,
        List.getElem?_drop]
      have harith : idx.toNat + 1 + (j - 1 - idx.toNat) = j := by omega
      rw [harith]
  · intro hout
    unfold removeImage
    simp only [hg]
    rw [if_pos hN, if_pos hout]
    constructor <;> split <;> rfl

/-- C3 witness: removing index 0 from the two-image sample gallery leaves
exactly the second image, and index 7 is rejected with the store unchanged. -/
theorem removeImage_removes_at_index_witness :
    Store.get sampleStore "cats" = some ⟨[sampleImageA, sampleImageB]⟩
    ∧ (removeImage sampleStore "cats" 0).2.get "cats" = some ⟨[sampleImageB]⟩
    ∧ (removeImage sampleStore "cats" 7).2 = sampleStore := by
  refine ⟨by decide, ?_, ?_⟩
  · have h := ((removeImage_removes_at_index sampleStore "cats"
      ⟨[sampleImageA, sampleImageB]⟩ 0 (by decide) (by decide)).1
      (by decide) (by decide)).1
    simpa using h
  · exact ((removeImage_removes_at_index sampleStore "cats"
      ⟨[sampleImageA, sampleImageB]⟩ 7 (by decide) (by decide)).2
      (by decide)).1

/-- C4: appending an image to an existing gallery stores the old sequence
with the new record (submitted URL, appending author's id, creation
timestamp) at the end, so reading the gallery back yields it as the last
element. -/
theorem addImage_appends_last (st : Store) (name url now authorId : String)
    (g : Gallery) (hg : st.get name = some g) :
    ((addImageToGallery st now authorId ⟨"add_image", [.str name, .str url]⟩).2.get name
        = some ⟨g.images ++ [⟨url, now, authorId⟩]⟩)
    ∧ (g.images ++ [(⟨url, now, authorId⟩ : Image)]).getLast?
        = some ⟨url, now, authorId⟩ := by
  constructor
  · unfold addImageToGallery
    simp only [SubCommand.opt, List.getD_cons_zero, List.getD_cons_succ,
      OptVal.stringValue, hg]
    exact Store.get_set_self ..
  · exact List.getLast?_concat _

/-- C4 witness: appending a third image to the sample gallery stores it at
the last position with the submitted URL, author and timestamp. -/
theorem addImage_appends_last_witness :
    Store.get sampleStore "cats" = some ⟨[sampleImageA, sampleImageB]⟩
    ∧ (addImageToGallery sampleStore "300" "carol"
        ⟨"add_image", [.str "cats", .str "https://example.com/c.png"]⟩).2.get "cats"
      = some ⟨[sampleImageA, sampleImageB, ⟨"https://example.com/c.png", "300", "carol"⟩]⟩ := by
  refine ⟨by decide, ?_⟩
  have h := (addImage_appends_last sampleStore "cats" "https://example.com/c.png"
    "300" "carol" ⟨[sampleImageA, sampleImageB]⟩ (by decide)).1
  simpa using h

/-- C5: creating a free name succeeds with an empty gallery and a second
`create` answers "Gallery already exists" leaving the store unchanged;
deleting an existing name removes it, and a second `delete` — whether through
the destructive `deleteGallery` or the `delete` subcommand's prompt — answers
"Gallery does not exist". -/
theorem create_create_delete_delete_twice (st : Store) (name : String) :
    (st.get name = none →
      ((createGallery st ⟨"create", [.str name]⟩).2.get name = some ⟨[]⟩
        ∧ (createGallery st ⟨"create", [.str name]⟩).1
            = { embeds := [createdEmbed name] }
        ∧ createGallery (createGallery st ⟨"create", [.str name]⟩).2
              ⟨"create", [.str name]⟩
            = ({ embeds := [alreadyExistsEmbed] },
               (createGallery st ⟨"create", [.str name]⟩).2)))
    ∧ (∀ g, st.get name = some g →
      ((deleteGallery st name).2.get name = none
        ∧ (deleteGallery st name).1 = { embeds := [deletedEmbed name] }
        ∧ deleteGallery (deleteGallery st name).2 name
            = ({ embeds := [galleryNotExistEmbed] }, (deleteGallery st name).2)
        ∧ deleteGalleryPrompt (deleteGallery st name).2 ⟨"delete", [.str name]⟩
            = { embeds := [galleryNotExistEmbed] })) := by
  constructor
  · intro h
    have h1 : createGallery st ⟨"create", [.str name]⟩ =
        ({ embeds := [createdEmbed name] }, st.set name ⟨[]⟩) := by
      unfold createGallery
      simp only [SubCommand.opt, List.getD_cons_zero, OptVal.stringValue, h]
    rw [h1]
    refine ⟨Store.get_set_self .., rfl, ?_⟩
    unfold createGallery
    simp only [SubCommand.opt, List.getD_cons_zero, OptVal.stringValue,
      Store.get_set_self]
  · intro g h
    have h1 : deleteGallery st name = ({ embeds := [deletedEmbed name] }, st.del name) := by
      unfold deleteGallery
      simp only [h]
    rw [h1]
    refine ⟨Store.get_del_self .., rfl, ?_, ?_⟩
    · unfold deleteGallery
      simp only [Store.get_del_self]
    · unfold deleteGalleryPrompt
      simp only [SubCommand.opt, List.getD_cons_zero, OptVal.stringValue,
        Store.get_del_self]

/-- C5 witness: creating the free name "dogs" stores an empty gallery, and
deleting the existing "cats" empties its slot. -/
theorem create_create_delete_delete_twice_witness :
    Store.get sampleStore "dogs" = none
    ∧ (createGallery sampleStore ⟨"create", [.str "dogs"]⟩).2.get "dogs" = some ⟨[]⟩
    ∧ Store.get sampleStore "cats" = some ⟨[sampleImageA, sampleImageB]⟩
    ∧ (deleteGallery sampleStore "cats").2.get "cats" = none := by
  refine ⟨by decide, ?_, by decide, ?_⟩
  · exact ((create_create_delete_delete_twice sampleStore "dogs").1 (by decide)).1
  · exact ((create_create_delete_delete_twice sampleStore "cats").2
      ⟨[sampleImageA, sampleImageB]⟩ (by decide)).1

/-- C6: a confirm click on an image-removal prompt whose target gallery has
since been deleted re-validates against the store and answers the user with
the "Gallery does not exist" embed, leaving the store unchanged — a visible
response, not a crash and not a silent no-op. -/
theorem imageDeleteYes_revalidates_missing_gallery (st : Store)
    (v0 v1 : String) (rest : List EmbedField) (es : List Embed)
    (h : st.get (goTrimBackticks v0) = none) :
    imageDeleteYes st
      ⟨{ fields := [⟨"In gallery", v0, true⟩, ⟨"Image number", v1, true⟩] ++ rest } :: es⟩ =
    (⟨.updateMessage, { embeds := [galleryNotExistEmbed], components := some [] }⟩, st) := by
  unfold imageDeleteYes removeImage Message.fieldValue
  simp only [List.cons_append, List.getD_cons_zero, List.getD_cons_succ, h]

/-- C6 witness: gallery "dogs" is absent from the sample store, so confirming
an image-removal prompt for it answers "Gallery does not exist" without
touching the store. -/
theorem imageDeleteYes_revalidates_missing_gallery_witness :
    Store.get sampleStore (goTrimBackticks "`dogs`") = none
    ∧ imageDeleteYes sampleStore
        ⟨[{ fields := [⟨"In gallery", "`dogs`", true⟩, ⟨"Image number", "0", true⟩] }]⟩ =
      (⟨.updateMessage, { embeds := [galleryNotExistEmbed], components := some [] }⟩,
        sampleStore) := by
  refine ⟨by decide, ?_⟩
  exact imageDeleteYes_revalidates_missing_gallery sampleStore "`dogs`" "0" [] []
    (by decide)

/-- C7 counterexample: an event with the unknown top-level command name
"ping" and an event with the unknown component custom id "bogus_button"
produce no response at all (the dispatch silently drops them), contradicting
the claim that the router answers every such event with a visible diagnostic
response. -/
theorem router_unknown_silent_cex :
    (route [] 0 "0" (.appCommand "ping" ⟨"random", [.str "cats"]⟩ "alice")).1 = none
    ∧ (route [] 0 "0" (.component "bogus_button" ⟨[]⟩)).1 = none := ⟨rfl, rfl⟩

/-- C7 (amended): an unknown subcommand under the `gallery` command receives
the visible "Invalid subcommand" diagnostic embed, but an unknown top-level
command name or unknown component custom identifier is silently dropped: no
handler runs, no response is produced, and the store is unchanged. -/
theorem router_unknown_dispatch_amended (st : Store) (rnd : Nat) (now : String)
    (name : String) (sub : SubCommand) (authorId cid : String) (msg : Message) :
    (name ≠ "gallery" → route st rnd now (.appCommand name sub authorId) = (none, st))
    ∧ (cid ≠ "gallery_delete_yes" → cid ≠ "gallery_delete_no" →
       cid ≠ "image_delete_yes" → cid ≠ "image_delete_no" →
        route st rnd now (.component cid msg) = (none, st))
    ∧ (sub.name ≠ "random" → sub.name ≠ "pick" → sub.name ≠ "add_image" →
       sub.name ≠ "remove_image" → sub.name ≠ "create" → sub.name ≠ "delete" →
        route st rnd now (.appCommand "gallery" sub authorId) =
          (some ⟨.channelMessageWithSource, { embeds := [invalidSubcommandEmbed] }⟩, st)) := by
  refine ⟨?_, ?_, ?_⟩
  · intro h
    simp only [route]
    rw [if_neg h]
  · intro h1 h2 h3 h4
    simp only [route]
    rw [if_neg h1, if_neg h2, if_neg h3, if_neg h4]
  · intro h1 h2 h3 h4 h5 h6
    simp only [route, galleryCommandHandler]
    rw [if_pos trivial, if_neg h1, if_neg h2, if_neg h3, if_neg h4, if_neg h5, if_neg h6]

/-- C7 witness: the unknown top-level command "ping", the unknown component
id "mystery_button", and the unknown subcommand "rename" under `gallery`
behave as the amended claim states on the sample store. -/
theorem router_unknown_dispatch_amended_witness :
    route sampleStore 0 "0" (.appCommand "ping" ⟨"random", []⟩ "alice")
        = (none, sampleStore)
    ∧ route sampleStore 0 "0" (.component "mystery_button" ⟨[]⟩)
        = (none, sampleStore)
    ∧ route sampleStore 0 "0" (.appCommand "gallery" ⟨"rename", []⟩ "alice")
        = (some ⟨.channelMessageWithSource, { embeds := [invalidSubcommandEmbed] }⟩,
           sampleStore) := by
  refine ⟨?_, ?_, ?_⟩
  · exact (router_unknown_dispatch_amended sampleStore 0 "0" "ping" ⟨"random", []⟩
      "alice" "x" ⟨[]⟩).1 (by decide)
  · exact (router_unknown_dispatch_amended sampleStore 0 "0" "x" ⟨"random", []⟩
      "alice" "mystery_button" ⟨[]⟩).2.1 (by decide) (by decide) (by decide) (by decide)
  · exact (router_unknown_dispatch_amended sampleStore 0 "0" "gallery" ⟨"rename", []⟩
      "alice" "x" ⟨[]⟩).2.2 (by decide) (by decide) (by decide) (by decide)
      (by decide) (by decide)

/-- C8: the two cancel handlers perform no store mutation — the store
component of their result is exactly the input store — and their response
replaces the prompt (`UpdateMessage`) with a cancellation notice and an
explicitly empty component list. -/
theorem cancel_handlers_no_store_mutation (st : Store) (msg : Message) :
    (galleryDeleteNo st msg =
      (⟨.updateMessage,
        { embeds := [{ description := "Cancelled removal of gallery "
            ++ inBackticks (goTrimBackticks (msg.fieldValue 0)) ++ "." }],
          components := some [] }⟩, st))
    ∧ (imageDeleteNo st msg =
      (⟨.updateMessage,
        { embeds := [{ description := "Cancelled removal of image "
            ++ inBackticks (msg.fieldValue 1) ++ " from gallery "
            ++ inBackticks (goTrimBackticks (msg.fieldValue 0)) ++ "." }],
          components := some [] }⟩, st)) := ⟨rfl, rfl⟩

/-- C9 (implicit behaviour, confirmed): when the prompt's "Image number"
field does not parse as a decimal integer, the discarded `strconv.Atoi`
error leaves `imageNum = 0`, so on a non-empty gallery the confirm handler
deletes the first image instead of rejecting the malformed payload. -/
theorem imageDeleteYes_malformed_index_deletes_first (st : Store)
    (v0 v1 : String) (rest : List EmbedField) (es : List Embed)
    (g : Gallery) (img : Image) (tl : List Image)
    (hp : goParseDecInt v1 = none)
    (hg : st.get (goTrimBackticks v0) = some g)
    (himg : g.images = img :: tl) :
    imageDeleteYes st
      ⟨{ fields := [⟨"In gallery", v0, true⟩, ⟨"Image number", v1, true⟩] ++ rest } :: es⟩ =
    (⟨.updateMessage,
      { embeds := [removeSuccessEmbed 0 (goTrimBackticks v0)],
        components := some [] }⟩,
     st.set (goTrimBackticks v0) ⟨tl⟩) := by
  unfold imageDeleteYes removeImage Message.fieldValue goAtoi
  simp only [List.cons_append, List.getD_cons_zero, List.getD_cons_succ, hp, hg, himg,
    Option.getD_none]
  rw [if_pos (by simp), if_neg (by simp)]
  rfl

/-- C9 witness: the malformed image number "oops" on the sample gallery's
prompt deletes the first image, leaving only the second. -/
theorem imageDeleteYes_malformed_index_deletes_first_witness :
    goParseDecInt "oops" = none
    ∧ Store.get sampleStore (goTrimBackticks "`cats`")
        = some ⟨[sampleImageA, sampleImageB]⟩
    ∧ imageDeleteYes sampleStore
        ⟨[{ fields := [⟨"In gallery", "`cats`", true⟩, ⟨"Image number", "oops", true⟩] }]⟩ =
      (⟨.updateMessage,
        { embeds := [removeSuccessEmbed 0 (goTrimBackticks "`cats`")],
          components := some [] }⟩,
       sampleStore.set (goTrimBackticks "`cats`") ⟨[sampleImageB]⟩) := by
  refine ⟨by decide, by decide, ?_⟩
  exact imageDeleteYes_malformed_index_deletes_first sampleStore "`cats`" "oops" [] []
    ⟨[sampleImageA, sampleImageB]⟩ sampleImageA [sampleImageB]
    (by decide) (by decide) rfl

/-- C10 (implicit behaviour, confirmed): encoding a gallery name into the
prompt's embed field as `inBackticks name` and extracting it in the confirm
and cancel handlers with `goTrimBackticks` returns the original name exactly
when the name neither starts nor ends with a backtick; a name with a leading
or trailing backtick comes back changed. -/
theorem backtick_roundtrip (name : String) :
    ((name.data.head? ≠ some backtick ∧ name.data.getLast? ≠ some backtick) →
      goTrimBackticks (inBackticks name) = name)
    ∧ ((name.data.head? = some backtick ∨ name.data.getLast? = some backtick) →
      goTrimBackticks (inBackticks name) ≠ name) := by
  constructor
  · rintro ⟨hh, hl⟩
    apply String.ext
    show trimCharList backtick (backtick :: name.data ++ [backtick]) = name.data
    unfold trimCharList
    rw [List.cons_append,
      List.dropWhile_cons_of_pos (p := fun x => x == backtick) (by simp)]
    cases hd : name.data with
    | nil =>
      simp
    | cons a t =>
      have ha : ¬ ((fun x => x == backtick) a) = true := by
        rw [hd] at hh
        simpa using hh
      rw [List.cons_append,
        List.dropWhile_cons_of_neg (p := fun x => x == backtick) ha]
      have hrw : (a :: (t ++ [backtick])).reverse = backtick :: (a :: t).reverse := by
        simp
      rw [hrw, List.dropWhile_cons_of_pos (p := fun x => x == backtick) (by simp)]
      have hgl : (a :: t).getLast? ≠ some backtick := by
        rw [hd] at hl
        exact hl
      cases hrev : (a :: t).reverse with
      | nil => simp at hrev
      | cons b r =>
        have hb : ¬ ((fun x => x == backtick) b) = true := by
          have hh2 : (a :: t).reverse.head? = (a :: t).getLast? := List.head?_reverse _
          rw [hrev] at hh2
          simp only [List.head?_cons] at hh2
          intro hbeq
          apply hgl
          rw [← hh2]
          simpa using hbeq
        rw [List.dropWhile_cons_of_neg (p := fun x => x == backtick) hb,
          ← hrev, List.reverse_reverse]
  · intro h heq
    have hdata : trimCharList backtick (inBackticks name).data = name.data :=
      congrArg String.data heq
    have hedges := trimCharList_edges backtick (inBackticks name).data
    rcases h with hh | hl
    · exact hedges.1 (by rw [hdata]; exact hh)
    · exact hedges.2 (by rw [hdata]; exact hl)

/-- C10 witness: "cats" (no edge backticks) round-trips unchanged, while
"\x60cats" (leading backtick) comes back different. -/
theorem backtick_roundtrip_witness :
    ("cats" : String).data.head? ≠ some backtick
    ∧ goTrimBackticks (inBackticks "cats") = "cats"
    ∧ ("`cats" : String).data.head? = some backtick
    ∧ goTrimBackticks (inBackticks "`cats") ≠ "`cats" := by
  refine ⟨by decide, ?_, by decide, ?_⟩
  · exact (backtick_roundtrip "cats").1 ⟨by decide, by decide⟩
  · exact (backtick_roundtrip "`cats").2 (Or.inl (by decide))

end GalleryGopher
